import Mathlib

/-!
Shallow embedding of the DBAgent inventory workflow
(src/agent.py, src/graph.py, src/tools.py).

External services are modelled as oracle inputs:
* the LLM classifier / structured extractors return `Except String α`
  (`Except.error e` models the Python call raising an exception whose
  `str(e)` is `e`);
* the remote Supabase table is a `List Item` threaded through the store
  client functions, and a network fault inside a store call is an
  `Option String` oracle (`some e` models the call raising `e`).

Python truthiness of strings (`if not s` is taken when `s` is `None` or
`""`) is embedded explicitly wherever the source relies on it.
-/

/-- Python rendering of an `Optional[str]` inside an f-string:
`None` prints as `"None"`, a string prints verbatim. -/
def pyOptStr : Option String → String
  | none => "None"
  | some s => s

/-- A row of the `Inventory` table: `item_name` is the key,
`description` is nullable (src/tools.py `UpsertInput`, table rows). -/
structure Item where
  item_name : String
  quantity : Int
  description : Option String
deriving Repr, DecidableEq

/-- src/graph.py `TaskClassifier` (pydantic). The `task` field is
`Literal["fetch","upsert","delete"]`; a structured-output value that
violates the literal raises, i.e. lands in the oracle's `Except.error`
branch, so the field is a plain `String` here. `confidence` is an
optional float, modelled as `Option Rat`. -/
structure TaskClassifier where
  task : String
  confidence : Option Rat := none
  reasoning : Option String := none
deriving Repr, DecidableEq

/-- src/graph.py `QAState` (pydantic). -/
structure QAState where
  output : String
  inventory_context : Option String := none
  query_type : Option String := none
deriving Repr, DecidableEq

/-- src/graph.py `UpsertState` (pydantic). -/
structure UpsertState where
  item_name : String
  quantity : Int
  description : Option String := none
deriving Repr, DecidableEq

/-- src/graph.py `DeleteState` (pydantic): `confirm` defaults to `True`. -/
structure DeleteState where
  item_name : String
  confirm : Bool := true
deriving Repr, DecidableEq

/-- src/tools.py `InventoryResponse` (pydantic). -/
structure InventoryResponse where
  success : Bool
  message : String
  data : Option (List Item) := none
deriving Repr, DecidableEq

/-- src/agent.py `AgentState` (TypedDict). Optional / not-yet-set fields
are `Option`; `response` mirrors the extra compatibility key the nodes
set alongside `final_response`. -/
structure AgentState where
  message : String
  inventory_data : List Item
  chat_history : Option (List (String × String)) := none
  task : Option String := none
  task_classifier : Option TaskClassifier := none
  upsert_data : Option UpsertState := none
  delete_data : Option DeleteState := none
  qa_response : Option QAState := none
  final_response : Option String := none
  response : Option String := none
  error : Option String := none
deriving Repr, DecidableEq

/-- The f-string appended for one item by the loop body of
src/agent.py `format_inventory_as_string`
(a null description prints as Python `None`). -/
def render_inventory_row (item : Item) : String :=
  item.item_name ++ " | " ++ toString item.quantity ++ " | "
    ++ pyOptStr item.description ++ " |\n"

/-- src/agent.py `format_inventory_as_string`: empty inventory returns
the fixed sentinel; otherwise a running string starts with the
"INVENTORY DATA:" line and the header row, and the loop appends one row
per item. -/
def format_inventory_as_string (inventory_data : List Item) : String :=
  if inventory_data.isEmpty then
    "The inventory is empty."
  else
    inventory_data.foldl
      (fun result item => result ++ render_inventory_row item)
      ("INVENTORY DATA:\n" ++ "|Item Name | Quantity | Description |\n")

/-- src/agent.py `initialize_agent_state`: fresh state for one turn;
`inventory_data` is the snapshot fetched from the store. -/
def initialize_agent_state (message : String) (snapshot : List Item) : AgentState :=
  { message := message, inventory_data := snapshot }

/-- src/tools.py `upsert_inventory_item`. `exc = some e` models the
Supabase call raising; otherwise the upsert keys on `item_name`
(replace the matching rows, else append) and the returned `data` is the
affected rows, which is non-empty, so the "no data returned" branch of
the source is unreachable and the call reports success. -/
def upsert_inventory_item (exc : Option String) (db : List Item)
    (input_data : UpsertState) : InventoryResponse × List Item :=
  match exc with
  | some e =>
      ({ success := false, message := "Error upserting item: " ++ e,
         data := some [] }, db)
  | none =>
      let row : Item :=
        ⟨input_data.item_name, input_data.quantity, input_data.description⟩
      let newDb :=
        if db.any (fun it => it.item_name == input_data.item_name) then
          db.map (fun it =>
            if it.item_name == input_data.item_name then row else it)
        else
          db ++ [row]
      ({ success := true,
         message := "Successfully upserted item '" ++ input_data.item_name
           ++ "' with quantity " ++ toString input_data.quantity,
         data := some [row] }, newDb)

/-- src/tools.py `delete_inventory_item`: first selects the rows whose
`item_name` equals the requested name; if none exist it reports the
distinct not-found failure without touching the table; otherwise it
deletes every matching row, and since the Supabase response object is
truthy the `if response:` test succeeds. `exc = some e` models the
calls raising. -/
def delete_inventory_item (exc : Option String) (db : List Item)
    (item_name : String) : InventoryResponse × List Item :=
  match exc with
  | some e =>
      ({ success := false, message := "Error deleting item: " ++ e,
         data := some [] }, db)
  | none =>
      if db.any (fun it => it.item_name == item_name) then
        ({ success := true,
           message := "Successfully deleted item '" ++ item_name
             ++ "' from inventory",
           data := some [] },
         db.filter (fun it => !(it.item_name == item_name)))
      else
        ({ success := false,
           message := "Item '" ++ item_name ++ "' not found in inventory",
           data := some [] }, db)

/-- src/agent.py `classify_task`: `cls` is the structured-output oracle.
On success both `task_classifier` and `task` are recorded; on failure
`error` is set with the classification prefix and nothing else changes. -/
def classify_task (state : AgentState) (cls : Except String TaskClassifier) :
    AgentState :=
  match cls with
  | Except.ok response =>
      { state with task_classifier := some response, task := some response.task }
  | Except.error e =>
      { state with error := some ("Error in task classification: " ++ e) }

/-- src/graph.py `task_router`: Python `if not task:` is taken when the
key is absent (`none`) or the value is the empty string. -/
def task_router (state : AgentState) : String :=
  match state.task with
  | none => "handle_error"
  | some task =>
      if task = "" then "handle_error"
      else if task = "fetch" then "run_qa_agent"
      else if task = "upsert" then "run_upsert_agent"
      else if task = "delete" then "run_delete_agent"
      else "handle_error"

/-- src/agent.py `run_qa_agent`: `ext` is the LLM-chain oracle (the raw
string the chain returns, or the exception it raises). On success the
raw text goes verbatim into `final_response` and `response`; on failure
all of `error`, `final_response`, `response` get the QA error message. -/
def run_qa_agent (state : AgentState) (ext : Except String String) : AgentState :=
  let inventory_str := format_inventory_as_string state.inventory_data
  match ext with
  | Except.ok response =>
      { state with
          qa_response := some ⟨response, some inventory_str, none⟩,
          final_response := some response,
          response := some response }
  | Except.error e =>
      let m := "Error in QA agent: " ++ e
      { state with error := some m, final_response := some m, response := some m }

/-- src/agent.py `run_upsert_agent`: `ext` is the structured-extraction
oracle, `exc` the store-call fault oracle, `db` the remote table. -/
def run_upsert_agent (state : AgentState) (ext : Except String UpsertState)
    (exc : Option String) (db : List Item) : AgentState × List Item :=
  match ext with
  | Except.error e =>
      let m := "Error in upsert agent: " ++ e
      ({ state with
           error := some m, final_response := some m, response := some m }, db)
  | Except.ok response =>
      let state1 := { state with upsert_data := some response }
      let result := upsert_inventory_item exc db
        ⟨response.item_name, response.quantity, response.description⟩
      if result.1.success then
        let m := "Successfully added/updated " ++ response.item_name
          ++ " with quantity " ++ toString response.quantity ++ "."
        ({ state1 with final_response := some m, response := some m }, result.2)
      else
        let m := "Error: " ++ result.1.message
        ({ state1 with
             error := some result.1.message,
             final_response := some m, response := some m }, result.2)

/-- src/agent.py `run_delete_agent`: same oracle shape as the upsert
handler; only `response.item_name` is passed to the store client. -/
def run_delete_agent (state : AgentState) (ext : Except String DeleteState)
    (exc : Option String) (db : List Item) : AgentState × List Item :=
  match ext with
  | Except.error e =>
      let m := "Error in delete agent: " ++ e
      ({ state with
           error := some m, final_response := some m, response := some m }, db)
  | Except.ok response =>
      let state1 := { state with delete_data := some response }
      let result := delete_inventory_item exc db response.item_name
      if result.1.success then
        let m := "Successfully deleted " ++ response.item_name
          ++ " from inventory."
        ({ state1 with final_response := some m, response := some m }, result.2)
      else
        let m := "Error: " ++ result.1.message
        ({ state1 with
             error := some result.1.message,
             final_response := some m, response := some m }, result.2)

/-- Default cause substituted by `handle_error` when `error` is falsy. -/
def handle_error_default_cause : String :=
  "I couldn't understand what you want to do. Please try again with a clearer query about fetching, updating, or deleting inventory items."

/-- src/agent.py `handle_error`: Python `if not state.get("error")` is
taken when the key is absent or holds the empty string, in which case
the default cause is substituted; then both response fields are set to
the wrapped user-facing message.  Total: no failure path exists. -/
def handle_error (state : AgentState) : AgentState :=
  let err :=
    match state.error with
    | none => handle_error_default_cause
    | some e => if e = "" then handle_error_default_cause else e
  let error_response := "Sorry, I encountered an issue: " ++ err
    ++ ". Please try again with a clearer query about inventory management."
  { state with
      error := some err,
      final_response := some error_response,
      response := some error_response }

/-! ## Helper lemmas -/

theorem append_ne_empty (p s : String) (h : p ≠ "") : p ++ s ≠ "" := by
  intro hc
  apply h
  have h2 := congrArg String.data hc
  simp only [String.data_append] at h2
  have := List.append_eq_nil.mp h2
  cases p
  simp_all [String.data]

theorem foldl_append_shift (l : List String) (acc : String) :
    l.foldl (fun a s => a ++ s) acc = acc ++ l.foldl (fun a s => a ++ s) "" := by
  induction l generalizing acc with
  | nil => simp [String.append_empty]
  | cons x xs ih =>
      simp only [List.foldl_cons]
      rw [ih (acc ++ x), ih ("" ++ x), String.empty_append, String.append_assoc]

theorem join_cons (x : String) (xs : List String) :
    String.join (x :: xs) = x ++ String.join xs := by
  simp only [String.join, List.foldl_cons]
  rw [foldl_append_shift, String.empty_append]

theorem foldl_append_join (f : α → String) (l : List α) (acc : String) :
    l.foldl (fun a x => a ++ f x) acc = acc ++ String.join (l.map f) := by
  induction l generalizing acc with
  | nil => simp [String.join, String.append_empty]
  | cons x xs ih =>
      simp only [List.foldl_cons, List.map_cons, ih, join_cons, String.append_assoc]

theorem any_filter_not (p : Item → Bool) (l : List Item) :
    (l.filter (fun x => !(p x))).any p = false := by
  simp [List.any_eq_true, List.mem_filter]

/-! ## Claims -/

/-- C2: `task_router` is total: for every state it returns exactly one of
the four terminal node names; an unset task or a task outside the three
known intents routes to `handle_error`, `"fetch"` routes to the QA node,
`"upsert"` to the upsert node and `"delete"` to the delete node. -/
theorem task_router_total (s : AgentState) :
    (task_router s = "run_qa_agent" ∨ task_router s = "run_upsert_agent" ∨
     task_router s = "run_delete_agent" ∨ task_router s = "handle_error") ∧
    (s.task = none → task_router s = "handle_error") ∧
    (∀ t, s.task = some t → t ≠ "fetch" → t ≠ "upsert" → t ≠ "delete" →
       task_router s = "handle_error") ∧
    (s.task = some "fetch" → task_router s = "run_qa_agent") ∧
    (s.task = some "upsert" → task_router s = "run_upsert_agent") ∧
    (s.task = some "delete" → task_router s = "run_delete_agent") := by
  unfold task_router
  cases h : s.task with
  | none => simp
  | some t =>
      refine ⟨?_, by simp, ?_, ?_, ?_, ?_⟩
      · by_cases h0 : t = ""
        · simp [h0]
        by_cases h1 : t = "fetch"
        · simp [h0, h1]
        by_cases h2 : t = "upsert"
        · simp [h0, h1, h2]
        by_cases h3 : t = "delete"
        · simp [h0, h1, h2, h3]
        · simp [h0, h1, h2, h3]
      · rintro t' ht' h1 h2 h3
        obtain rfl : t = t' := by simpa using ht'
        by_cases h0 : t = "" <;> simp [h0, h1, h2, h3]
      · rintro ht
        obtain rfl : t = "fetch" := by simpa using ht
        simp
      · rintro ht
        obtain rfl : t = "upsert" := by simpa using ht
        simp
      · rintro ht
        obtain rfl : t = "delete" := by simpa using ht
        simp

/-- Witness for C2: the routing facts evaluated at concrete states. -/
theorem task_router_total_witness :
    task_router { message := "m", inventory_data := [], task := some "fetch" }
      = "run_qa_agent" ∧
    task_router { message := "m", inventory_data := [], task := some "upsert" }
      = "run_upsert_agent" ∧
    task_router { message := "m", inventory_data := [], task := some "delete" }
      = "run_delete_agent" ∧
    task_router { message := "m", inventory_data := [], task := some "junk" }
      = "handle_error" ∧
    task_router { message := "m", inventory_data := [] } = "handle_error" :=
  ⟨(task_router_total _).2.2.2.1 rfl,
   (task_router_total _).2.2.2.2.1 rfl,
   (task_router_total _).2.2.2.2.2 rfl,
   (task_router_total _).2.2.1 "junk" rfl (by decide) (by decide) (by decide),
   (task_router_total _).2.1 rfl⟩

/-- C3: on classifier failure `classify_task` sets
`error = "Error in task classification: <cause>"`, leaves `task` unset,
and the router then sends the run to `handle_error`; on classifier
success it records the intent and the structured result. -/
theorem classify_task_spec (s : AgentState) (cls : Except String TaskClassifier)
    (htask : s.task = none) :
    (∀ e, cls = Except.error e →
       (classify_task s cls).error
         = some ("Error in task classification: " ++ e) ∧
       (classify_task s cls).task = none ∧
       task_router (classify_task s cls) = "handle_error") ∧
    (∀ c, cls = Except.ok c →
       (classify_task s cls).task = some c.task ∧
       (classify_task s cls).task_classifier = some c) := by
  constructor
  · rintro e rfl
    refine ⟨rfl, htask, ?_⟩
    simp [task_router, classify_task, htask]
  · rintro c rfl
    exact ⟨rfl, rfl⟩

/-- Witness for C3: a failing and a succeeding classification on a fresh
state. -/
theorem classify_task_spec_witness :
    (classify_task (initialize_agent_state "hi" []) (Except.error "boom")).error
      = some "Error in task classification: boom" ∧
    task_router (classify_task (initialize_agent_state "hi" []) (Except.error "boom"))
      = "handle_error" ∧
    (classify_task (initialize_agent_state "hi" [])
        (Except.ok ⟨"fetch", none, none⟩)).task = some "fetch" :=
  ⟨((classify_task_spec _ _ rfl).1 "boom" rfl).1,
   ((classify_task_spec _ _ rfl).1 "boom" rfl).2.2,
   ((classify_task_spec _ _ rfl).2 ⟨"fetch", none, none⟩ rfl).1⟩

/-- C9 counterexample: an `error` field that is set (to the empty
string) is NOT preserved as the cause — the Python falsy test
`if not state.get("error")` replaces it with the default cause. -/
theorem handle_error_empty_cause_counterexample :
    (handle_error { message := "m", inventory_data := [], error := some "" }).error
      = some handle_error_default_cause ∧
    handle_error_default_cause ≠ "" := ⟨rfl, by decide⟩

/-- C9 (amended): `handle_error` is total (it has no failure path); a
non-empty pre-set `error` is preserved as the cause, an unset or empty
`error` is replaced by the default cause, and `finalResponse` is the
fixed wrapper around the cause. -/
theorem handle_error_spec (s : AgentState) :
    (∀ e, s.error = some e → e ≠ "" →
       (handle_error s).error = some e ∧
       (handle_error s).final_response =
         some ("Sorry, I encountered an issue: " ++ e
           ++ ". Please try again with a clearer query about inventory management.")) ∧
    ((s.error = none ∨ s.error = some "") →
       (handle_error s).error = some handle_error_default_cause ∧
       (handle_error s).final_response =
         some ("Sorry, I encountered an issue: " ++ handle_error_default_cause
           ++ ". Please try again with a clearer query about inventory management.")) := by
  constructor
  · rintro e he hne
    simp [handle_error, he, hne]
  · rintro (he | he) <;> simp [handle_error, he]

/-- Witness for C9: a preserved non-empty cause and a substituted
default cause, at concrete states. -/
theorem handle_error_spec_witness :
    (handle_error { message := "m", inventory_data := [], error := some "boom" }).final_response
      = some "Sorry, I encountered an issue: boom. Please try again with a clearer query about inventory management." ∧
    (handle_error { message := "m", inventory_data := [] }).error
      = some handle_error_default_cause :=
  ⟨((handle_error_spec _).1 "boom" rfl (by decide)).2,
   ((handle_error_spec _).2 (Or.inl rfl)).1⟩

/-- C8 counterexample: on failure the QA node's message is
"Error in QA agent: <cause>", not the claimed
"Error in query agent: <cause>". -/
theorem run_qa_agent_message_counterexample :
    (run_qa_agent (initialize_agent_state "m" []) (Except.error "boom")).error
      = some "Error in QA agent: boom" ∧
    (run_qa_agent (initialize_agent_state "m" []) (Except.error "boom")).final_response
      = some "Error in QA agent: boom" ∧
    "Error in QA agent: boom" ≠ "Error in query agent: boom" :=
  ⟨rfl, rfl, by decide⟩

/-- C8 (amended): on any failure the QA node sets both `error` and
`final_response` (and the compatibility `response`) to
"Error in QA agent: <cause>" — the response field is never left unset
on failure; on success `final_response` is the extractor's raw text. -/
theorem run_qa_agent_spec (s : AgentState) (ext : Except String String) :
    (∀ e, ext = Except.error e →
       (run_qa_agent s ext).error = some ("Error in QA agent: " ++ e) ∧
       (run_qa_agent s ext).final_response = some ("Error in QA agent: " ++ e) ∧
       (run_qa_agent s ext).response = some ("Error in QA agent: " ++ e)) ∧
    (∀ t, ext = Except.ok t →
       (run_qa_agent s ext).final_response = some t ∧
       (run_qa_agent s ext).response = some t ∧
       (run_qa_agent s ext).error = s.error) := by
  constructor
  · rintro e rfl
    exact ⟨rfl, rfl, rfl⟩
  · rintro t rfl
    exact ⟨rfl, rfl, rfl⟩

/-- Witness for C8: a failing and a succeeding QA run at concrete
inputs. -/
theorem run_qa_agent_spec_witness :
    (run_qa_agent (initialize_agent_state "how many" []) (Except.error "down")).final_response
      = some "Error in QA agent: down" ∧
    (run_qa_agent (initialize_agent_state "how many" []) (Except.ok "hello")).final_response
      = some "hello" :=
  ⟨((run_qa_agent_spec _ _).1 "down" rfl).2.1,
   ((run_qa_agent_spec _ _).2 "hello" rfl).1⟩

/-- C4 counterexample: rendering a one-item inventory gives a string
that starts with the line "INVENTORY DATA:", not with the claimed
header row "Item Name | Quantity | Description" (the real header row
also carries an extra leading and trailing pipe). -/
theorem format_inventory_header_counterexample :
    format_inventory_as_string [⟨"A", 1, some "d"⟩]
      = "INVENTORY DATA:\n|Item Name | Quantity | Description |\nA | 1 | d |\n" ∧
    ¬ (("Item Name | Quantity | Description").data
        <+: (format_inventory_as_string [⟨"A", 1, some "d"⟩]).data) := by
  constructor
  · decide
  · decide

/-- C4 (amended): rendering is deterministic: an empty inventory yields
exactly "The inventory is empty."; a non-empty inventory yields the
line "INVENTORY DATA:", then the header row
"|Item Name | Quantity | Description |", then — in insertion order —
one newline-terminated row per item of the form
"name | quantity | description |", each item's fields appearing exactly
once. -/
theorem format_inventory_spec (inv : List Item) :
    format_inventory_as_string [] = "The inventory is empty." ∧
    (inv ≠ [] →
      format_inventory_as_string inv =
        "INVENTORY DATA:\n" ++ "|Item Name | Quantity | Description |\n"
          ++ String.join (inv.map render_inventory_row)) := by
  refine ⟨rfl, fun h => ?_⟩
  unfold format_inventory_as_string
  rw [if_neg (by simpa [List.isEmpty_iff] using h)]
  exact foldl_append_join _ _ _

/-- Witness for C4: the rendering of a two-item inventory, row per item
in insertion order. -/
theorem format_inventory_spec_witness :
    format_inventory_as_string [⟨"A", 1, some "d"⟩, ⟨"B", 2, none⟩]
      = "INVENTORY DATA:\n" ++ "|Item Name | Quantity | Description |\n"
        ++ String.join ([Item.mk "A" 1 (some "d"), Item.mk "B" 2 none].map render_inventory_row) :=
  (format_inventory_spec _).2 (by decide)

/-- C5: the upsert handler: on store success `final_response` is
"Successfully added/updated <name> with quantity <quantity>." with the
extractor-supplied name and quantity; on store failure `error` is the
store's message and `final_response` is "Error: <store message>"; on
extraction failure both are "Error in upsert agent: <cause>". -/
theorem run_upsert_agent_spec (s : AgentState) (ext : Except String UpsertState)
    (exc : Option String) (db : List Item) :
    (∀ r, ext = Except.ok r → exc = none →
       (upsert_inventory_item exc db ⟨r.item_name, r.quantity, r.description⟩).1.success
         = true ∧
       (run_upsert_agent s ext exc db).1.final_response =
         some ("Successfully added/updated " ++ r.item_name
           ++ " with quantity " ++ toString r.quantity ++ ".")) ∧
    (∀ r e, ext = Except.ok r → exc = some e →
       (upsert_inventory_item exc db ⟨r.item_name, r.quantity, r.description⟩).1.success
         = false ∧
       (run_upsert_agent s ext exc db).1.error =
         some ((upsert_inventory_item exc db ⟨r.item_name, r.quantity, r.description⟩).1.message) ∧
       (run_upsert_agent s ext exc db).1.final_response =
         some ("Error: "
           ++ (upsert_inventory_item exc db ⟨r.item_name, r.quantity, r.description⟩).1.message)) ∧
    (∀ e, ext = Except.error e →
       (run_upsert_agent s ext exc db).1.error
         = some ("Error in upsert agent: " ++ e) ∧
       (run_upsert_agent s ext exc db).1.final_response
         = some ("Error in upsert agent: " ++ e)) := by
  refine ⟨?_, ?_, ?_⟩
  · rintro r rfl rfl
    simp [run_upsert_agent, upsert_inventory_item]
  · rintro r e rfl rfl
    simp [run_upsert_agent, upsert_inventory_item]
  · rintro e rfl
    exact ⟨rfl, rfl⟩

/-- Witness for C5: the spec's end-to-end scenario — empty prior
inventory, extractor returns (Monitor, 5, no description), the store
upsert succeeds — plus a store failure and an extraction failure, all
at concrete inputs. -/
theorem run_upsert_agent_spec_witness :
    (run_upsert_agent (initialize_agent_state "Add 5 new monitors to inventory" [])
        (Except.ok ⟨"Monitor", 5, none⟩) none []).1.final_response
      = some "Successfully added/updated Monitor with quantity 5." ∧
    (run_upsert_agent (initialize_agent_state "m" [])
        (Except.ok ⟨"Monitor", 5, none⟩) (some "net down") []).1.final_response
      = some "Error: Error upserting item: net down" ∧
    (run_upsert_agent (initialize_agent_state "m" [])
        (Except.error "bad schema") none []).1.error
      = some "Error in upsert agent: bad schema" :=
  ⟨((run_upsert_agent_spec _ _ _ _).1 ⟨"Monitor", 5, none⟩ rfl rfl).2,
   ((run_upsert_agent_spec _ _ _ _).2.1 ⟨"Monitor", 5, none⟩ "net down" rfl rfl).2.2,
   ((run_upsert_agent_spec _ _ _ _).2.2 "bad schema" rfl).1⟩

/-- C6: the store client checks existence before deleting: a name with
no match yields a not-found failure (success = false, the distinct
not-found message) with the table untouched, and the delete handler
then sets `error` and a `final_response` beginning with "Error: "; a
name that exists deletes successfully and the handler's
`final_response` is "Successfully deleted <name> from inventory.". -/
theorem delete_not_found_spec (s : AgentState) (db : List Item) (d : DeleteState) :
    (db.any (fun it => it.item_name == d.item_name) = false →
       (delete_inventory_item none db d.item_name).1.success = false ∧
       (delete_inventory_item none db d.item_name).1.message
         = "Item '" ++ d.item_name ++ "' not found in inventory" ∧
       (delete_inventory_item none db d.item_name).2 = db ∧
       (run_delete_agent s (Except.ok d) none db).1.error
         = some ((delete_inventory_item none db d.item_name).1.message) ∧
       ∃ rest, (run_delete_agent s (Except.ok d) none db).1.final_response
         = some ("Error: " ++ rest)) ∧
    (db.any (fun it => it.item_name == d.item_name) = true →
       (delete_inventory_item none db d.item_name).1.success = true ∧
       (run_delete_agent s (Except.ok d) none db).1.final_response
         = some ("Successfully deleted " ++ d.item_name ++ " from inventory.")) := by
  constructor
  · intro h
    refine ⟨?_, ?_, ?_, ?_, ?_⟩ <;>
      simp [delete_inventory_item, run_delete_agent, h]
  · intro h
    constructor <;> simp [delete_inventory_item, run_delete_agent, h]

/-- Witness for C6: deleting a missing name and an existing name from a
concrete one-item table. -/
theorem delete_not_found_spec_witness :
    (delete_inventory_item none [⟨"A", 1, none⟩] "B").1.message
      = "Item 'B' not found in inventory" ∧
    (delete_inventory_item none [⟨"A", 1, none⟩] "B").2 = [⟨"A", 1, none⟩] ∧
    (run_delete_agent (initialize_agent_state "m" [])
        (Except.ok ⟨"A", true⟩) none [⟨"A", 1, none⟩]).1.final_response
      = some "Successfully deleted A from inventory." :=
  ⟨((delete_not_found_spec (initialize_agent_state "m" []) _ ⟨"B", true⟩).1 (by decide)).2.1,
   ((delete_not_found_spec (initialize_agent_state "m" []) _ ⟨"B", true⟩).1 (by decide)).2.2.1,
   ((delete_not_found_spec _ _ ⟨"A", true⟩).2 (by decide)).2⟩

/-- C7: delete is idempotent in outcome: for a name present in the
table, the first delete succeeds, the second reports the not-found
failure, and after both calls no row with that name remains. -/
theorem delete_idempotent (db : List Item) (n : String)
    (h : db.any (fun it => it.item_name == n) = true) :
    (delete_inventory_item none db n).1.success = true ∧
    (delete_inventory_item none (delete_inventory_item none db n).2 n).1.success
      = false ∧
    (delete_inventory_item none (delete_inventory_item none db n).2 n).1.message
      = "Item '" ++ n ++ "' not found in inventory" ∧
    (delete_inventory_item none (delete_inventory_item none db n).2 n).2.any
      (fun it => it.item_name == n) = false := by
  have hfilter := any_filter_not (fun it => it.item_name == n) db
  simp only [delete_inventory_item, h, if_true]
  simp [hfilter]

/-- Witness for C7: both deletes evaluated on a concrete two-item
table. -/
theorem delete_idempotent_witness :
    (delete_inventory_item none [⟨"A", 1, none⟩, ⟨"B", 2, none⟩] "A").1.success = true ∧
    (delete_inventory_item none
        (delete_inventory_item none [⟨"A", 1, none⟩, ⟨"B", 2, none⟩] "A").2 "A").1.success
      = false ∧
    (delete_inventory_item none
        (delete_inventory_item none [⟨"A", 1, none⟩, ⟨"B", 2, none⟩] "A").2 "A").2.any
      (fun it => it.item_name == "A") = false :=
  ⟨(delete_idempotent [⟨"A", 1, none⟩, ⟨"B", 2, none⟩] "A" (by decide)).1,
   (delete_idempotent [⟨"A", 1, none⟩, ⟨"B", 2, none⟩] "A" (by decide)).2.1,
   (delete_idempotent [⟨"A", 1, none⟩, ⟨"B", 2, none⟩] "A" (by decide)).2.2.2⟩

/-- C10: the delete extraction schema's `confirm` field defaults to
true, and the delete handler never reads it: the resulting table,
`final_response` and `error` are identical whatever `confirm` holds, so
a `confirm = false` extraction still triggers the deletion. -/
theorem delete_confirm_ignored (s : AgentState) (d : DeleteState)
    (exc : Option String) (db : List Item) :
    ({ item_name := d.item_name } : DeleteState).confirm = true ∧
    (run_delete_agent s (Except.ok d) exc db).2
      = (run_delete_agent s (Except.ok ⟨d.item_name, false⟩) exc db).2 ∧
    (run_delete_agent s (Except.ok d) exc db).1.final_response
      = (run_delete_agent s (Except.ok ⟨d.item_name, false⟩) exc db).1.final_response ∧
    (run_delete_agent s (Except.ok d) exc db).1.error
      = (run_delete_agent s (Except.ok ⟨d.item_name, false⟩) exc db).1.error ∧
    (db.any (fun it => it.item_name == d.item_name) = true → exc = none →
       (run_delete_agent s (Except.ok ⟨d.item_name, false⟩) exc db).2.any
         (fun it => it.item_name == d.item_name) = false) := by
  refine ⟨rfl, ?_, ?_, ?_, ?_⟩
  · simp only [run_delete_agent]
    split <;> simp
  · simp only [run_delete_agent]
    split <;> simp
  · simp only [run_delete_agent]
    split <;> simp
  · rintro h rfl
    have hfilter := any_filter_not (fun it => it.item_name == d.item_name) db
    simp [run_delete_agent, delete_inventory_item, h, hfilter]

/-- Witness for C10: a `confirm = false` extraction on a concrete
one-item table still removes the row. -/
theorem delete_confirm_ignored_witness :
    (run_delete_agent (initialize_agent_state "m" [])
        (Except.ok ⟨"A", false⟩) none [⟨"A", 1, none⟩]).2.any
      (fun it => it.item_name == "A") = false :=
  (delete_confirm_ignored (initialize_agent_state "m" []) ⟨"A", true⟩
    none [⟨"A", 1, none⟩]).2.2.2.2 (by decide) rfl

/-- C1 counterexample: the QA node's success path copies the
extractor's raw text verbatim, so an empty extractor output leaves
`final_response` equal to the empty string; and `handle_error`, which
has no failure path at all, still sets `error` on a state that carried
none — so neither "finalResponse is non-empty on every path" nor
"errorMessage is set iff the node failed" holds as stated. -/
theorem terminal_nodes_counterexample :
    (run_qa_agent (initialize_agent_state "m" []) (Except.ok "")).final_response
      = some "" ∧
    (initialize_agent_state "m" []).error = none ∧
    (handle_error (initialize_agent_state "m" [])).error.isSome = true :=
  ⟨rfl, rfl, rfl⟩

/-- C1 (amended): every terminal node sets `final_response` on every
code path; its value is a non-empty string on every path except the QA
node's success path, where it is the extractor's raw text verbatim (and
hence empty exactly when that text is); for the three agent handlers
run on a state with no prior `error`, the result's `error` is set iff
that node's extraction raised or its store call reported failure; the
error handler, which has no failure path, always sets `error`. -/
theorem terminal_nodes_spec (s : AgentState) (hs : s.error = none)
    (extq : Except String String) (extu : Except String UpsertState)
    (extd : Except String DeleteState) (exc : Option String) (db : List Item) :
    ((run_qa_agent s extq).final_response.isSome = true ∧
     ((run_qa_agent s extq).error.isSome = true ↔ ∃ e, extq = Except.error e) ∧
     (∀ e, extq = Except.error e →
        (run_qa_agent s extq).final_response = some ("Error in QA agent: " ++ e) ∧
        "Error in QA agent: " ++ e ≠ "") ∧
     (∀ t, extq = Except.ok t → (run_qa_agent s extq).final_response = some t)) ∧
    ((run_upsert_agent s extu exc db).1.final_response.isSome = true ∧
     (∀ m, (run_upsert_agent s extu exc db).1.final_response = some m → m ≠ "") ∧
     (∀ r, extu = Except.ok r →
        ((run_upsert_agent s extu exc db).1.error.isSome = true ↔
          (upsert_inventory_item exc db ⟨r.item_name, r.quantity, r.description⟩).1.success
            = false)) ∧
     (∀ e, extu = Except.error e →
        (run_upsert_agent s extu exc db).1.error.isSome = true)) ∧
    ((run_delete_agent s extd exc db).1.final_response.isSome = true ∧
     (∀ m, (run_delete_agent s extd exc db).1.final_response = some m → m ≠ "") ∧
     (∀ r, extd = Except.ok r →
        ((run_delete_agent s extd exc db).1.error.isSome = true ↔
          (delete_inventory_item exc db r.item_name).1.success = false)) ∧
     (∀ e, extd = Except.error e →
        (run_delete_agent s extd exc db).1.error.isSome = true)) ∧
    (∀ s' : AgentState,
       (handle_error s').final_response.isSome = true ∧
       (∀ m, (handle_error s').final_response = some m → m ≠ "") ∧
       (handle_error s').error.isSome = true) := by
  refine ⟨?_, ?_, ?_, ?_⟩
  · cases extq with
    | ok t => simp [run_qa_agent, hs]
    | error e =>
        refine ⟨rfl, ?_, ?_, ?_⟩
        · simp [run_qa_agent]
        · rintro e' he
          obtain rfl : e = e' := by simpa using he
          exact ⟨rfl, append_ne_empty _ _ (by decide)⟩
        · rintro t ht
          cases ht
  · cases extu with
    | ok r =>
        cases exc with
        | none =>
            refine ⟨rfl, ?_, ?_, ?_⟩
            · rintro m hm
              simp only [run_upsert_agent, upsert_inventory_item] at hm
              obtain rfl : "Successfully added/updated " ++ r.item_name
                  ++ " with quantity " ++ toString r.quantity ++ "." = m := by
                simpa using hm
              exact append_ne_empty _ _ (append_ne_empty _ _
                (append_ne_empty _ _ (append_ne_empty _ _ (by decide))))
            · rintro r' hr
              obtain rfl : r = r' := by simpa using hr
              simp [run_upsert_agent, upsert_inventory_item, hs]
            · rintro e he
              cases he
        | some exv =>
            refine ⟨rfl, ?_, ?_, ?_⟩
            · rintro m hm
              simp only [run_upsert_agent, upsert_inventory_item] at hm
              obtain rfl : "Error: " ++ ("Error upserting item: " ++ exv) = m := by
                simpa using hm
              exact append_ne_empty _ _ (by decide)
            · rintro r' hr
              obtain rfl : r = r' := by simpa using hr
              simp [run_upsert_agent, upsert_inventory_item]
            · rintro e he
              cases he
    | error e =>
        refine ⟨rfl, ?_, ?_, ?_⟩
        · rintro m hm
          simp only [run_upsert_agent] at hm
          obtain rfl : "Error in upsert agent: " ++ e = m := by simpa using hm
          exact append_ne_empty _ _ (by decide)
        · rintro r hr
          cases hr
        · rintro e' he
          simp [run_upsert_agent]
  · cases extd with
    | ok r =>
        cases exc with
        | none =>
            by_cases h : db.any (fun it => it.item_name == r.item_name) = true
            · refine ⟨?_, ?_, ?_, ?_⟩
              · simp [run_delete_agent, delete_inventory_item, h]
              · rintro m hm
                simp only [run_delete_agent, delete_inventory_item, h,
                  if_true] at hm
                obtain rfl : "Successfully deleted " ++ r.item_name
                    ++ " from inventory." = m := by simpa using hm
                exact append_ne_empty _ _ (append_ne_empty _ _ (by decide))
              · rintro r' hr
                obtain rfl : r = r' := by simpa using hr
                simp [run_delete_agent, delete_inventory_item, h, hs]
              · rintro e he
                cases he
            · rw [Bool.not_eq_true] at h
              refine ⟨?_, ?_, ?_, ?_⟩
              · simp [run_delete_agent, delete_inventory_item, h]
              · rintro m hm
                simp only [run_delete_agent, delete_inventory_item, h,
                  Bool.false_eq_true, if_false] at hm
                obtain rfl : "Error: " ++ ("Item '" ++ r.item_name
                    ++ "' not found in inventory") = m := by simpa using hm
                exact append_ne_empty _ _ (by decide)
              · rintro r' hr
                obtain rfl : r = r' := by simpa using hr
                simp [run_delete_agent, delete_inventory_item, h]
              · rintro e he
                cases he
        | some exv =>
            refine ⟨rfl, ?_, ?_, ?_⟩
            · rintro m hm
              simp only [run_delete_agent, delete_inventory_item] at hm
              obtain rfl : "Error: " ++ ("Error deleting item: " ++ exv) = m := by
                simpa using hm
              exact append_ne_empty _ _ (by decide)
            · rintro r' hr
              obtain rfl : r = r' := by simpa using hr
              simp [run_delete_agent, delete_inventory_item]
            · rintro e he
              cases he
    | error e =>
        refine ⟨rfl, ?_, ?_, ?_⟩
        · rintro m hm
          simp only [run_delete_agent] at hm
          obtain rfl : "Error in delete agent: " ++ e = m := by simpa using hm
          exact append_ne_empty _ _ (by decide)
        · rintro r hr
          cases hr
        · rintro e' he
          simp [run_delete_agent]
  · intro s'
    refine ⟨rfl, ?_, rfl⟩
    rintro m hm
    simp only [handle_error] at hm
    obtain rfl : "Sorry, I encountered an issue: "
        ++ (match s'.error with
            | none => handle_error_default_cause
            | some e => if e = "" then handle_error_default_cause else e)
        ++ ". Please try again with a clearer query about inventory management."
        = m := by simpa using hm
    exact append_ne_empty _ _ (append_ne_empty _ _ (by decide))

/-- Witness for C1: the four nodes evaluated at concrete inputs through
the amended theorem. -/
theorem terminal_nodes_spec_witness :
    (run_qa_agent (initialize_agent_state "q" []) (Except.ok "hi")).final_response
      = some "hi" ∧
    (run_upsert_agent (initialize_agent_state "q" [])
        (Except.ok ⟨"Monitor", 5, none⟩) none []).1.final_response.isSome = true ∧
    (run_delete_agent (initialize_agent_state "q" [])
        (Except.error "down") none []).1.error.isSome = true ∧
    (handle_error (initialize_agent_state "q" [])).error.isSome = true :=
  ⟨((terminal_nodes_spec (initialize_agent_state "q" []) rfl (Except.ok "hi")
      (Except.ok ⟨"Monitor", 5, none⟩) (Except.error "down") none []).1).2.2.2 "hi" rfl,
   ((terminal_nodes_spec (initialize_agent_state "q" []) rfl (Except.ok "hi")
      (Except.ok ⟨"Monitor", 5, none⟩) (Except.error "down") none []).2.1).1,
   ((terminal_nodes_spec (initialize_agent_state "q" []) rfl (Except.ok "hi")
      (Except.ok ⟨"Monitor", 5, none⟩) (Except.error "down") none []).2.2.1).2.2.2 "down" rfl,
   ((terminal_nodes_spec (initialize_agent_state "q" []) rfl (Except.ok "hi")
      (Except.ok ⟨"Monitor", 5, none⟩) (Except.error "down") none []).2.2.2
      (initialize_agent_state "q" [])).2.2⟩
